import Mathlib

/-!
Verification of the job-matching and ingestion subsystem of the jobsmatch
repository (src/bot/telethon_scraper.py and src/bot/gemini_matcher.py).

Python text is modelled as a list of characters (type Str below).  Every
function is a direct transcription of the corresponding Python function,
written with structural recursion so that the kernel can evaluate it on
concrete inputs.  Python regular expressions that occur in the source are
transcribed case by case: each pattern used by the code is a literal label
followed by simple character classes, and the transcription is commented at
the definition that models it.
-/

set_option maxRecDepth 100000
set_option maxHeartbeats 4000000

namespace JobsMatch

/-- Python text is modelled as a list of characters. -/
abbrev Str := List Char

/-- Python str.isspace characters as used by str.strip and the regex class
backslash-s: space, tab, newline, carriage return, vertical tab, form feed. -/
def pyWs (c : Char) : Bool :=
  c = ' ' || c = '\t' || c = '\n' || c = '\r' || c = '\x0b' || c = '\x0c'

/-- Python str.strip with no arguments: drop whitespace from both ends. -/
def pyStrip (t : Str) : Str :=
  ((t.dropWhile pyWs).reverse.dropWhile pyWs).reverse

/-- One-character lowering for Python str.lower.  ASCII letters are lowered
exactly; of the non-ASCII characters appearing in the embedded literals of
this file only U+0152 and U+0160 are uppercase, so those two are mapped as
CPython maps them and all remaining characters are kept unchanged. -/
def lowerChar (c : Char) : Char :=
  if c = 'Œ' then 'œ' else if c = 'Š' then 'š' else c.toLower

/-- Python str.lower, character by character. -/
def pyLower (t : Str) : Str := t.map lowerChar

/-- ASCII upper-casing of one character (used by Python str.title). -/
def upperChar (c : Char) : Char := c.toUpper

/-- ASCII letter test (approximates the cased-character test of Python
str.title; all title-cased strings in the claims are ASCII). -/
def isAsciiAlpha (c : Char) : Bool :=
  ('a' ≤ c && c ≤ 'z') || ('A' ≤ c && c ≤ 'Z')

/-- Helper for pyTitle: the flag records whether the previous character was
a letter. -/
def pyTitleAux : Bool → Str → Str
  | _, [] => []
  | prevAlpha, c :: t =>
    (if isAsciiAlpha c then (if prevAlpha then lowerChar c else upperChar c) else c)
      :: pyTitleAux (isAsciiAlpha c) t

/-- Python str.title: the first letter of every letter run is upper-cased,
the following letters are lower-cased. -/
def pyTitle (t : Str) : Str := pyTitleAux false t

/-- Python substring test: nd in hay.  The empty needle is contained in
everything, as in Python. -/
def inStr (nd : Str) : Str → Bool
  | [] => nd.isEmpty
  | c :: t => nd.isPrefixOf (c :: t) || inStr nd t

/-- Python str.split on a newline: keeps empty segments and always returns
at least one segment. -/
def splitOnNl : Str → List Str
  | [] => [[]]
  | c :: t =>
    let r := splitOnNl t
    if c = '\n' then [] :: r
    else
      match r with
      | [] => [[c]]
      | h :: rs => (c :: h) :: rs

/-- Fuel-driven worker for Python str.replace: replaces every
non-overlapping occurrence of nd, scanning left to right.  The fuel starts
at the length of the text and each step consumes at least one character, so
the fuel never runs out on the initial call. -/
def replaceAllAux (nd rep : Str) : Nat → Str → Str
  | 0, t => t
  | _ + 1, [] => []
  | fuel + 1, c :: t =>
    if nd.isPrefixOf (c :: t) then rep ++ replaceAllAux nd rep fuel (t.drop (nd.length - 1))
    else c :: replaceAllAux nd rep fuel t

/-- Python str.replace old -> new over the whole string (all occurrences).
The source only calls it with non-empty old strings; an empty old string is
returned unchanged here. -/
def replaceAll (nd rep t : Str) : Str :=
  if nd.isEmpty then t else replaceAllAux nd rep t.length t

/-- Try a partial match step at every suffix of the text, left to right:
the leftmost-match discipline of re.search. -/
def sfx {α : Type} (step : Str → Option α) : Str → Option α
  | [] => step []
  | c :: t => (step (c :: t)).orElse (fun _ => sfx step t)

/-- Decimal digits of a natural number (fuel-driven, structural). -/
def natStrAux : Nat → Nat → Str
  | 0, _ => []
  | _ + 1, 0 => []
  | fuel + 1, n => natStrAux fuel (n / 10) ++ [Char.ofNat (48 + n % 10)]

/-- Python str of a natural number. -/
def natStr (n : Nat) : Str := if n = 0 then ['0'] else natStrAux (n + 1) n

/-- Python str of an integer. -/
def intStr : Int → Str
  | .ofNat n => natStr n
  | .negSucc n => '-' :: natStr (n + 1)

/-! ## Vocabulary of JobScraper.__init__ (src/bot/telethon_scraper.py, lines 31-57).
The non-ASCII strings are copied byte for byte from the repository file,
which stores them in a doubly-encoded form; CPython reads the file as UTF-8
and therefore sees exactly the characters reproduced here. -/

/-- Amharic job keywords followed by the English ones, in the iteration
order of the job_keywords dict of the source. -/
def job_keywords : List Str :=
  ["áˆ¥áˆ«".data, "áˆµáˆ«".data, "áˆáˆ­áŒ«á‹á‰½".data, "á‹¨áˆµáˆ« áŠ áˆµáˆáˆˆáŒŠá‹«".data,
   "á‰£áˆˆáˆ™á‹«".data, "á‰°áˆ›áˆ«á‰½".data, "áˆµáˆ« á‹­áˆáˆáŒ‹áˆ".data, "á‹¨áˆµáˆ« áŒ¥á‰…áˆ".data,
   "áˆµáˆ« áˆ˜áˆáˆˆáŒŠá‹«".data, "áˆáˆ­áŒ« á‹­áˆáˆˆáŒ‹áˆ".data,
   "job".data, "vacancy".data, "hiring".data, "recruitment".data, "position".data,
   "career".data, "employment".data, "opportunity".data, "opening".data, "role".data,
   "work".data, "apply".data]

/-- The job_types dict of the source, in insertion order. -/
def job_types : List (Str × List Str) :=
  [("full_time".data, ["full time".data, "full-time".data, "permanent".data]),
   ("part_time".data, ["part time".data, "part-time".data, "temporary".data]),
   ("contract".data, ["contract".data, "consultant".data, "freelance".data]),
   ("remote".data, ["remote".data, "work from home".data, "wfh".data, "online".data]),
   ("internship".data, ["internship".data, "intern".data, "trainee".data])]

/-- The locations list of the source. -/
def locations : List Str :=
  ["addis ababa".data, "addis".data, "adama".data, "dire dawa".data, "mekelle".data,
   "gondar".data, "bahir dar".data, "hawassa".data, "jimma".data, "dessie".data,
   "áŠ á‹²áˆµ áŠ á‰ á‰£".data, "áŠ á‹²áˆµ".data, "áŠ á‹³áˆ›".data, "á‹µáˆ¬á‹³á‹‹".data,
   "áˆ˜á‰€áˆŒ".data, "áŒáŠ•á‹°áˆ­".data]

/-! ## JobScraper.is_job_posting (src/bot/telethon_scraper.py, lines 203-266) -/

/-- The skip_patterns denylist of is_job_posting, in source order. -/
def skip_patterns : List Str :=
  ["database error".data, "error adding".data, "failed to add".data, "âŒ".data,
   "error:".data, "select job categories".data, "update preferences".data,
   "contact support".data, "main menu".data, "back to".data, "help".data,
   "start".data, "welcome".data, "commands".data, "subscription".data,
   "payment".data, "apply".data, "profile".data, "settings".data, "admin".data,
   "statistics".data, "channels".data, "groups".data, "monitor".data,
   "forwarded job".data, "ai-matched".data, "matched job".data]

/-- The job_indicators list of is_job_posting, in source order. -/
def job_indicators : List Str :=
  ["job title:".data, "position:".data, "vacancy:".data, "hiring:".data,
   "recruitment:".data, "salary:".data, "compensation:".data, "deadline:".data,
   "work location:".data, "job type:".data, "experience:".data,
   "qualification:".data, "requirements:".data,
   "áˆ¥áˆ«:".data, "á‹¨áˆµáˆ«:".data, "á‹°áˆá‹“:".data, "áŠ­áá‹«:".data,
   "áˆáˆ­áŒ«:".data, "áŠ­áá‰µ".data]

/-- The Afriwork structured-label list of is_job_posting. -/
def afriwork_labels : List Str :=
  ["job title:".data, "job type:".data, "work location:".data,
   "salary/compensation:".data, "deadline:".data]

/-- JobScraper.is_job_posting: denylist, length and command-count
pre-filters, then the keyword gate, then the indicator or structured-label
check. -/
def is_job_posting (text : Str) : Bool :=
  if text.isEmpty then false
  else if skip_patterns.any (fun p => inStr p (pyLower text)) then false
  else if (pyStrip text).length < 50 then false
  else if 2 < text.count '/' then false
  else if !(job_keywords.any (fun k => inStr k (pyLower text))) then false
  else
    job_indicators.any (fun p => inStr p (pyLower text))
      || afriwork_labels.any (fun p => inStr p (pyLower text))

/-! ## Field extractors (src/bot/telethon_scraper.py, lines 268-507).
The regex patterns of the source all have the form of a literal label
followed by simple character classes; each is transcribed by a dedicated
matching step applied at every position of the text, left to right, which
is exactly the leftmost-match discipline of re.search. -/

/-- One match step for a pattern label followed by backslash-s star and a
captured dot-plus, applied to a single line (no newline characters), as in
the per-line searches of extract_title.  Returns the stripped capture. -/
def stepLabel (lbl : Str) (s : Str) : Option Str :=
  if (pyLower lbl).isPrefixOf (pyLower s) then
    let rest := s.drop lbl.length
    if rest.isEmpty then none else some (pyStrip rest)
  else none

/-- re.search of a label pattern over one line, IGNORECASE. -/
def searchLabel (lbl line : Str) : Option Str := sfx (stepLabel lbl) line

/-- One match step for a label pattern applied to the whole text: the
backslash-s star part may cross newlines, the captured dot-plus stops at
the next newline. -/
def stepLabelML (lbl : Str) (s : Str) : Option Str :=
  if (pyLower lbl).isPrefixOf (pyLower s) then
    let rest := s.drop lbl.length
    let w := rest.takeWhile pyWs
    let r := rest.drop w.length
    if r ≠ [] then some (pyStrip (r.takeWhile (fun c => c ≠ '\n')))
    else if w.any (fun c => c ≠ '\n') then some []
    else none
  else none

/-- re.search of a label pattern over the whole text, IGNORECASE. -/
def searchLabelML (lbl text : Str) : Option Str := sfx (stepLabelML lbl) text

/-- The title_patterns of extract_title, reduced to their literal labels. -/
def title_pattern_labels : List Str :=
  ["position:".data, "job title:".data, "role:".data, "vacancy:".data,
   "áˆ¥áˆ«:".data, "á‹¨áˆµáˆ« áˆµáˆ:".data]

/-- The inner double loop of extract_title: first line matching any of the
title patterns, patterns tried in order on each line. -/
def firstPatternTitle (lines : List Str) : Option Str :=
  lines.findSome? (fun line => title_pattern_labels.findSome? (fun p => searchLabel p line))

/-- JobScraper.extract_title. -/
def extract_title (text : Str) : Str :=
  match (splitOnNl text).find? (fun l => ("Job Title:".data).isPrefixOf (pyStrip l)) with
  | some l => pyStrip (replaceAll ("Job Title:".data) [] l)
  | none =>
    match firstPatternTitle (splitOnNl text) with
    | some t => t
    | none =>
      match splitOnNl text with
      | [] => "Job Position".data
      | l0 :: _ => if l0.length < 100 then pyStrip l0 else "Job Position".data

/-- JobScraper.extract_job_type. -/
def extract_job_type (text : Str) : Option Str :=
  let lines := splitOnNl text
  match lines.find? (fun l => ("Job Type:".data).isPrefixOf (pyStrip l)) with
  | some l =>
    let jt := pyStrip (replaceAll ("Job Type:".data) [] l)
    if inStr ("On-site".data) jt then some ("onsite".data)
    else if inStr ("Remote".data) jt then some ("remote".data)
    else if inStr ("Hybrid".data) jt then some ("hybrid".data)
    else some (pyLower jt)
  | none =>
    let tl := pyLower text
    job_types.findSome? (fun p => if p.2.any (fun k => inStr k tl) then some p.1 else none)

/-- Digit-or-comma character class of the salary patterns. -/
def isNumC (c : Char) : Bool := c.isDigit || c = ','

/-- The number group of the salary patterns: a digit-comma run, optionally
extended by whitespace, a dash, whitespace and a second digit-comma run.
Alternatives are returned greediest first, with the rest of the text after
each alternative. -/
def numAlts (t : Str) : List (Str × Str) :=
  let d1 := t.takeWhile isNumC
  if d1.isEmpty then []
  else
    let r0 := t.drop d1.length
    let w1 := r0.takeWhile pyWs
    match r0.drop w1.length with
    | '-' :: r2 =>
      let w2 := r2.takeWhile pyWs
      let r3 := r2.drop w2.length
      let d2 := r3.takeWhile isNumC
      if d2.isEmpty then [(d1, r0)]
      else [(d1 ++ w1 ++ '-' :: (w2 ++ d2), r3.drop d2.length), (d1, r0)]
    | _ => [(d1, r0)]

/-- Match step for a label followed by whitespace and the number group. -/
def stepLabNum (lbl : Str) (s : Str) : Option Str :=
  if (pyLower lbl).isPrefixOf (pyLower s) then
    match numAlts ((s.drop lbl.length).dropWhile pyWs) with
    | [] => none
    | a :: _ => some a.1
  else none

/-- re.search for a labelled number pattern over the whole text. -/
def searchLabNum (lbl text : Str) : Option Str := sfx (stepLabNum lbl) text

/-- The currency alternation birr or etb or br, IGNORECASE. -/
def unitAfter (s : Str) : Bool :=
  ("birr".data).isPrefixOf (pyLower s) || ("etb".data).isPrefixOf (pyLower s) ||
    ("br".data).isPrefixOf (pyLower s)

/-- Match step for the second salary pattern: number group, whitespace,
required currency word; the greedier number alternative is tried first. -/
def stepNumUnit (s : Str) : Option Str :=
  (numAlts s).findSome? (fun a => if unitAfter (a.2.dropWhile pyWs) then some a.1 else none)

/-- re.search for the second salary pattern over the whole text. -/
def searchNumUnit (text : Str) : Option Str := sfx stepNumUnit text

/-- JobScraper.extract_salary. -/
def extract_salary (text : Str) : Option Str :=
  let lines := splitOnNl text
  match lines.findSome? (fun l =>
      if ("Salary/Compensation:".data).isPrefixOf (pyStrip l) then
        let s := pyStrip (replaceAll ("Salary/Compensation:".data) [] l)
        if s ≠ [] ∧ s ≠ "Monthly".data ∧ s ≠ "Fixed (One-time)".data then some s else none
      else none) with
  | some s => some s
  | none =>
    match searchLabNum ("salary:".data) text with
    | some g => some (g ++ " Birr".data)
    | none =>
      match searchNumUnit text with
      | some g => some (g ++ " Birr".data)
      | none =>
        match searchLabNum ("á‹°áˆá‹“:".data) text with
        | some g => some (g ++ " Birr".data)
        | none =>
          match searchLabNum ("á‹¨áŠ­áá‹«á‰µ:".data) text with
          | some g => some (g ++ " Birr".data)
          | none => none

/-- JobScraper.extract_location. -/
def extract_location (text : Str) : Option Str :=
  let lines := splitOnNl text
  match lines.find? (fun l => ("Work Location:".data).isPrefixOf (pyStrip l)) with
  | some l => some (pyStrip (replaceAll ("Work Location:".data) [] l))
  | none =>
    let tl := pyLower text
    (locations.find? (fun loc => inStr loc tl)).map pyTitle

/-- JobScraper.extract_deadline. -/
def extract_deadline (text : Str) : Option Str :=
  let lines := splitOnNl text
  match lines.find? (fun l => ("Deadline:".data).isPrefixOf (pyStrip l)) with
  | some l => some (pyStrip (replaceAll ("Deadline:".data) [] l))
  | none => none

/-- The underscore separator recognised by extract_company. -/
def company_sep : Str := "__________________".data

/-- The layout heuristic of extract_company: the line before the first
qualifying separator line. -/
def companyFromSep (lines : List Str) : Option Str :=
  (lines.zip (lines.drop 1)).findSome? (fun pr =>
    if inStr company_sep pr.2 then
      let cl := pyStrip pr.1
      if cl ≠ [] ∧ ¬ ("From:".data).isPrefixOf cl ∧ ¬ ("Verified Company".data).isPrefixOf cl
      then some cl else none
    else none)

/-- The company_patterns of extract_company, reduced to their labels. -/
def company_labels : List Str :=
  ["company:".data, "organization:".data, "employer:".data,
   "á‹µáˆ­áŒ…á‰µ:".data, "á‹µáˆ­áŒ…á‰³á‹Š:".data]

/-- JobScraper.extract_company. -/
def extract_company (text : Str) : Option Str :=
  match companyFromSep (splitOnNl text) with
  | some c => some c
  | none => company_labels.findSome? (fun p => searchLabelML p text)

/-- Python exceptions that the modelled code can raise. -/
inductive PyErr where
  | nameError (n : Str)
  | indexError
  | typeError
deriving DecidableEq

deriving instance DecidableEq for Except

/-- Match step for the first link pattern, a forms.gle URL followed by at
least one non-whitespace character.  The pattern has no capture group. -/
def stepFormsGle (s : Str) : Option Unit :=
  if ("https://forms.gle/".data).isPrefixOf (pyLower s) then
    if ((s.drop 18).takeWhile (fun c => !pyWs c)) ≠ [] then some () else none
  else none

/-- Occurrence of .forms.gle/ inside a non-whitespace run, with at least
one character after it (the tail of the second link pattern). -/
def pat2Mid : Str → Bool
  | [] => false
  | c :: t =>
    ((".forms.gle/".data).isPrefixOf (pyLower (c :: t)) && 11 < (c :: t).length) || pat2Mid t

/-- Match step for the second link pattern: https scheme, a non-empty host
part, then .forms.gle/ and at least one more character, all without
whitespace.  The pattern has no capture group. -/
def stepPat2 (s : Str) : Option Unit :=
  if ("https://".data).isPrefixOf (pyLower s) then
    let run := (s.drop 8).takeWhile (fun c => !pyWs c)
    if 1 ≤ run.length ∧ pat2Mid (run.drop 1) then some () else none
  else none

/-- Match step for the third and fourth link patterns: a label, whitespace,
then a captured https URL. -/
def stepLinkLab (lbl : Str) (s : Str) : Option Str :=
  if (pyLower lbl).isPrefixOf (pyLower s) then
    let rest := (s.drop lbl.length).dropWhile pyWs
    if ("https://".data).isPrefixOf (pyLower rest) then
      let run := (rest.drop 8).takeWhile (fun c => !pyWs c)
      if run ≠ [] then some (rest.take 8 ++ run) else none
    else none
  else none

/-- JobScraper.extract_application_link.  The first two patterns have no
capture group, so a successful search makes match.group(1) raise
IndexError; the error value models that exception. -/
def extract_application_link (text : Str) : Except PyErr (Option Str) :=
  if (sfx stepFormsGle text).isSome then .error .indexError
  else if (sfx stepPat2 text).isSome then .error .indexError
  else
    match sfx (stepLinkLab ("apply using this link:".data)) text with
    | some g => .ok (some (pyStrip g))
    | none =>
      match sfx (stepLinkLab ("link:".data)) text with
      | some g => .ok (some (pyStrip g))
      | none => .ok none

/-- JobScraper.extract_view_details_link. -/
def extract_view_details_link (text : Str) : Option Str :=
  if inStr ("[view details below]".data) text then
    some ("View details available in original post".data)
  else none

/-! ## JobScraper.clean_description (src/bot/telethon_scraper.py, lines 488-507) -/

/-- Fuel-driven worker for a case-insensitive re.sub of a literal pattern
with the empty replacement. -/
def removeAllCIAux (nd : Str) : Nat → Str → Str
  | 0, t => t
  | _ + 1, [] => []
  | fuel + 1, c :: t =>
    if (pyLower nd).isPrefixOf (pyLower (c :: t)) then
      removeAllCIAux nd fuel (t.drop (nd.length - 1))
    else c :: removeAllCIAux nd fuel t

/-- Case-insensitive removal of every non-overlapping occurrence of a
literal pattern, scanning left to right. -/
def removeAllCI (nd t : Str) : Str := if nd.isEmpty then t else removeAllCIAux nd t.length t

/-- Length of a match of the link spam pattern (label, whitespace, http or
https scheme, non-empty non-whitespace run) at the start of the text. -/
def linkSpan (s : Str) : Option Nat :=
  if ("link:".data).isPrefixOf (pyLower s) then
    let r0 := s.drop 5
    let w := r0.takeWhile pyWs
    let r1 := r0.drop w.length
    let hlen : Option Nat :=
      if ("https://".data).isPrefixOf (pyLower r1) then some 8
      else if ("http://".data).isPrefixOf (pyLower r1) then some 7
      else none
    match hlen with
    | none => none
    | some k =>
      let run := (r1.drop k).takeWhile (fun c => !pyWs c)
      if run.isEmpty then none else some (5 + w.length + k + run.length)
  else none

/-- Fuel-driven worker removing every match of the link spam pattern. -/
def removeLinkPatAux : Nat → Str → Str
  | 0, t => t
  | _ + 1, [] => []
  | fuel + 1, c :: t =>
    match linkSpan (c :: t) with
    | some k => removeLinkPatAux fuel (t.drop (k - 1))
    | none => c :: removeLinkPatAux fuel t

/-- re.sub of the link spam pattern with the empty replacement. -/
def removeLinkPat (t : Str) : Str := removeLinkPatAux t.length t

/-- The word-character class of the mention pattern.  Python treats the
class as Unicode word characters; ASCII word characters are exact here and
all characters above 127 are accepted as word characters, which covers
every non-ASCII character stored by this repository. -/
def wordChar (c : Char) : Bool := c.isAlphanum || c = '_' || 128 ≤ c.toNat

/-- Fuel-driven worker removing every match of the mention pattern, an at
sign followed by at least one word character. -/
def removeMentionsAux : Nat → Str → Str
  | 0, t => t
  | _ + 1, [] => []
  | fuel + 1, c :: t =>
    if c = '@' ∧ (t.takeWhile wordChar) ≠ [] then
      removeMentionsAux fuel (t.drop (t.takeWhile wordChar).length)
    else c :: removeMentionsAux fuel t

/-- re.sub of the mention pattern with the empty replacement. -/
def removeMentions (t : Str) : Str := removeMentionsAux t.length t

/-- Worker replacing every maximal whitespace run by one space; the flag
records whether the previous character was whitespace. -/
def collapseWsAux : Bool → Str → Str
  | _, [] => []
  | prevWs, c :: t =>
    if pyWs c then (if prevWs then collapseWsAux true t else ' ' :: collapseWsAux true t)
    else c :: collapseWsAux false t

/-- re.sub of one-or-more whitespace with a single space. -/
def collapseWs (t : Str) : Str := collapseWsAux false t

/-- JobScraper.clean_description: the spam patterns are removed in source
order, whitespace is collapsed, and the result is stripped. -/
def clean_description (text : Str) : Str :=
  let c1 := removeAllCI ("share this post".data) text
  let c2 := removeAllCI ("forward this message".data) c1
  let c3 := removeAllCI ("join this channel".data) c2
  let c4 := removeAllCI ("click here".data) c3
  let c5 := removeLinkPat c4
  let c6 := removeMentions c5
  pyStrip (collapseWs c6)

/-! ## JobScraper.extract_job_data (src/bot/telethon_scraper.py, lines 268-321) -/

/-- A Python datetime.date value, carried as its ISO text.  The only
operation the modelled code performs on it is str interpolation; the key
property, recorded at pyDumps below, is that it is not JSON
serializable. -/
structure PyDate where
  iso : Str
deriving DecidableEq

/-- One incoming Telegram message as seen by handle_job_post. -/
structure IncomingMsg where
  chat_id : Int
  msg_id : Int
  text : Str
  fromSelf : Bool
deriving DecidableEq

/-- The job_data dict built by extract_job_data, field for field. -/
structure JobData where
  title : Str
  company_name : Option Str
  location : Option Str
  job_type : Option Str
  salary_range : Option Str
  deadline : Option Str
  application_link : Option Str
  view_details : Option Str
  description : Str
  source : Str
  posted_date : PyDate
  telegram_message_id : Int
  telegram_channel : Str
deriving DecidableEq

/-- getattr(message.chat, title, None) or str(message.chat_id): the
channel title when present and non-empty, otherwise the chat id as text. -/
def chanName (chat_id : Int) (chanTitle : Option Str) : Str :=
  match chanTitle with
  | some t => if t = [] then intStr chat_id else t
  | none => intStr chat_id

/-- JobScraper.extract_job_data.  Every helper is exception-free except
extract_application_link, whose IndexError is caught by the blanket
except of the source and turned into None; the source also returns None
when the title or the cleaned description is empty (Python falsiness). -/
def extract_job_data (m : IncomingMsg) (chanTitle : Option Str) (today : PyDate) :
    Option JobData :=
  match extract_application_link m.text with
  | .error _ => none
  | .ok app =>
    if extract_title m.text = [] ∨ clean_description m.text = [] then none
    else
      some ⟨extract_title m.text, extract_company m.text, extract_location m.text,
        extract_job_type m.text, extract_salary m.text, extract_deadline m.text, app,
        extract_view_details_link m.text, clean_description m.text,
        "telegram_".data ++ intStr m.chat_id, today, m.msg_id,
        chanName m.chat_id chanTitle⟩

/-! ## The duplicate filter and handler (src/bot/telethon_scraper.py, lines 88-164) -/

/-- The two in-memory membership sets of JobScraper: processed_messages
(composite chat and message identity) and processed_content (hash of the
raw body). -/
structure FilterState where
  processed_messages : List Str
  processed_content : List Str
deriving DecidableEq

/-- The composite identity key built by handle_job_post from the chat id
and the message id. -/
def msgKey (m : IncomingMsg) : Str := intStr m.chat_id ++ '_' :: intStr m.msg_id

/-- The duplicate-filter portion of handle_job_post (lines 97-124): reject
on a known identity key, on a message from the bot itself, on an empty or
short stripped body, or on a known content hash; otherwise mark both keys
and admit.  The content hash function is a parameter, as the spec allows
any hash; every property proved below holds for all hash functions. -/
def gate (hash : Str → Str) (m : IncomingMsg) (st : FilterState) : Bool × FilterState :=
  if msgKey m ∈ st.processed_messages then (false, st)
  else if m.fromSelf then (false, st)
  else if m.text = [] ∨ (pyStrip m.text).length < 50 then (false, st)
  else if hash m.text ∈ st.processed_content then (false, st)
  else (true, ⟨msgKey m :: st.processed_messages, hash m.text :: st.processed_content⟩)

/-- handle_job_post as one message-to-state step: the duplicate-filter
gate, then classification and extraction for admitted messages, then the
periodic clearing of each set when it holds more than 1000 keys.  The
early returns of the rejection paths skip the clearing, as in the source. -/
def handle_message (hash : Str → Str) (chanTitle : Option Str) (today : PyDate)
    (m : IncomingMsg) (st : FilterState) : Option JobData × FilterState :=
  match gate hash m st with
  | (false, st1) => (none, st1)
  | (true, st1) =>
    ((if is_job_posting m.text then extract_job_data m chanTitle today else none),
     ⟨(if 1000 < st1.processed_messages.length then [] else st1.processed_messages),
      (if 1000 < st1.processed_content.length then [] else st1.processed_content)⟩)

/-! ## Broadcast fan-out (src/bot/telethon_scraper.py, lines 509-709) -/

/-- One row of the users table as selected by get_all_users. -/
structure UserRow where
  user_id : Int
  full_name : Option Str
  username : Option Str
  telegram_id : Option Int
  role : Str
deriving DecidableEq

/-- Stable insertion of a user row into a list sorted by ascending
user id. -/
def insertByUid (u : UserRow) : List UserRow → List UserRow
  | [] => [u]
  | v :: vs => if u.user_id ≤ v.user_id then u :: v :: vs else v :: insertByUid u vs

/-- Stable sort of user rows by ascending user id (the ORDER BY of the
get_all_users query). -/
def sortByUid : List UserRow → List UserRow
  | [] => []
  | u :: us => insertByUid u (sortByUid us)

/-- JobScraper.get_all_users: every user with a telegram id, ordered by
user id.  The database content is a parameter. -/
def get_all_users (db : List UserRow) : List UserRow :=
  sortByUid (db.filter (fun u => u.telegram_id.isSome))

/-- The job_json dict built by forward_job_to_user_json, field for field
and in insertion order. -/
structure JobJson where
  post_id : Int
  title : Str
  company : Option Str
  location : Option Str
  job_type : Option Str
  salary : Option Str
  deadline : Option Str
  application_link : Option Str
  view_details : Option Str
  description : Str
  posted_date : PyDate
  source : Str
deriving DecidableEq

/-- The dict construction at the top of forward_job_to_user_json,
including the 500-character description truncation. -/
def buildJobJson (jd : JobData) (post_id : Int) : JobJson :=
  ⟨post_id, jd.title, jd.company_name, jd.location, jd.job_type, jd.salary_range,
   jd.deadline, jd.application_link, jd.view_details,
   (if 500 < jd.description.length then jd.description.take 500 ++ "...".data
    else jd.description),
   jd.posted_date, jd.telegram_channel⟩

/-- The names bound at module level in src/bot/telethon_scraper.py: those
bound by the module headers of lines 6-17 plus the module-level
definitions.  The name json is absent: the module never imports it
(hashlib is brought in locally inside handle_job_post and does not bind
json either). -/
def scraperModuleNames : List Str :=
  ["os".data, "asyncio".data, "logging".data, "re".data, "datetime".data,
   "timedelta".data, "List".data, "Dict".data, "Any".data, "Optional".data,
   "TelegramClient".data, "events".data, "Message".data, "Config".data,
   "DatabaseManager".data, "Job".data, "JobSeeker".data, "EducationLevel".data,
   "JobType".data, "GeminiJobMatcher".data, "logger".data, "JobScraper".data,
   "main".data]

/-- Evaluation of json.dumps(job_json, ...) inside the f-string of
format_json_job_message.  Resolving the name json fails with NameError
whenever json is not among the module-level names; and even under an
environment that does bind json, the call raises TypeError, because
job_json carries the datetime.date value posted_date, which the default
JSON encoder rejects.  The call therefore never produces a string. -/
def pyDumps (env : List Str) (_j : JobJson) : Except PyErr Str :=
  if ("json".data) ∈ env then .error .typeError
  else .error (.nameError ("json".data))

/-- The part of the format_json_job_message text assembled before the JSON
block, line for line as in the source. -/
def formatHead (j : JobJson) : Str :=
  "*ğŸ”” NEW JOB ALERT*\n\n*".data ++ j.title ++ "*\n".data
  ++ (match j.company with
      | some c => if c ≠ [] then "ğŸ¢ *Company:* ".data ++ c ++ "\n".data else []
      | none => [])
  ++ (match j.location with
      | some l => if l ≠ [] then "ğŸ“ *Location:* ".data ++ l ++ "\n".data else []
      | none => [])
  ++ (match j.job_type with
      | some t => if t ≠ [] then "ğŸ’¼ *Type:* ".data ++ pyTitle t ++ "\n".data else []
      | none => [])
  ++ (match j.salary with
      | some s => if s ≠ [] then "ğŸ’° *Salary:* ".data ++ s ++ "\n".data else []
      | none => [])
  ++ (match j.deadline with
      | some d => if d ≠ [] then "â° *Deadline:* ".data ++ d ++ "\n".data else []
      | none => [])
  ++ "\nğŸ“‹ *Description:*\n".data ++ j.description ++ "\n".data
  ++ (match j.application_link with
      | some a =>
        if a ≠ [] then "\nğŸ”— *Apply Here:* ".data ++ a ++ "\n".data
        else match j.view_details with
          | some v => if v ≠ [] then "\nğŸ“„ *Details:* ".data ++ v ++ "\n".data else []
          | none => []
      | none =>
        match j.view_details with
        | some v => if v ≠ [] then "\nğŸ“„ *Details:* ".data ++ v ++ "\n".data else []
        | none => [])
  ++ "\nğŸ†” *Post ID:* ".data ++ intStr j.post_id ++ "\n".data
  ++ "ğŸ“… *Posted:* ".data ++ j.posted_date.iso ++ "\n".data
  ++ "ğŸ”— *Source:* ".data ++ j.source ++ "\n\n".data

/-- The part of the format_json_job_message text assembled after the JSON
block. -/
def formatTail (j : JobJson) : Str :=
  "ğŸ‡ªğŸ‡¹ *New opportunity available!*\n\n".data
  ++ (match j.application_link with
      | some a =>
        if a ≠ [] then "ğŸ’¡ *Interested?* Click the link above to apply".data
        else "ğŸ’¡ *Interested?* Use `/apply ".data ++ intStr j.post_id ++ "` to apply".data
      | none => "ğŸ’¡ *Interested?* Use `/apply ".data ++ intStr j.post_id ++ "` to apply".data)

/-- JobScraper.format_json_job_message (broadcast version).  The embedded
JSON block needs json.dumps, whose evaluation is modelled by pyDumps, so
the function propagates that exception and otherwise assembles the head,
the JSON block and the tail. -/
def format_json_job_message (env : List Str) (j : JobJson) : Except PyErr Str :=
  match pyDumps env j with
  | .error e => .error e
  | .ok d => .ok (formatHead j ++ "```json\n".data ++ d ++ "\n```\n\n".data ++ formatTail j)

/-- JobScraper.forward_job_to_user_json.  The whole body sits in a
try/except that only logs, so an exception from the message formatting
yields no send attempt; otherwise a send is attempted exactly when the bot
instance is available and the user has a telegram id.  The result is the
attempted (chat id, text) pair, if any. -/
def forward_job_to_user_json (env : List Str) (botAvailable : Bool) (user : UserRow)
    (jd : JobData) (post_id : Int) : Option (Int × Str) :=
  match format_json_job_message env (buildJobJson jd post_id) with
  | .error _ => none
  | .ok msg =>
    if botAvailable then
      match user.telegram_id with
      | some tid => some (tid, msg)
      | none => none
    else none

/-- JobScraper.process_and_forward_job: abort when the save returned no
post id, otherwise iterate forward_job_to_user_json over every user
returned by get_all_users, with no other filtering.  The result pairs each
targeted user with the send attempt made for them. -/
def process_and_forward_job (env : List Str) (botAvailable : Bool) (db : List UserRow)
    (jd : JobData) (savedPostId : Option Int) : List (UserRow × Option (Int × Str)) :=
  match savedPostId with
  | none => []
  | some pid =>
    (get_all_users db).map (fun u => (u, forward_job_to_user_json env botAvailable u jd pid))

/-! ## GeminiJobMatcher (src/bot/gemini_matcher.py) -/

/-- An exact decimal number, value m divided by ten to the e: the Python
floats handled by the matcher are all exact decimals. -/
structure PyNum where
  m : Int
  e : Nat
deriving DecidableEq

/-- Comparison of two decimal numbers. -/
def pyNumLe (a b : PyNum) : Bool := a.m * (10 : Int) ^ b.e ≤ b.m * (10 : Int) ^ a.e

/-- Python max on decimals. -/
def pyNumMax (a b : PyNum) : PyNum := if pyNumLe a b then b else a

/-- Python min on decimals. -/
def pyNumMin (a b : PyNum) : PyNum := if pyNumLe a b then a else b

/-- A Python value as produced by json.loads. -/
inductive PyVal where
  | num (n : PyNum)
  | str (s : Str)
  | bool (b : Bool)
  | null
  | list (xs : List PyVal)
  | obj (fields : List (Str × PyVal))

/-- A Python dict with text keys, as an association list in insertion
order. -/
abbrev PyDict := List (Str × PyVal)

/-- JSON whitespace. -/
def jsonWsC (c : Char) : Bool := c = ' ' || c = '\t' || c = '\n' || c = '\r'

/-- Value of a hexadecimal digit. -/
def hexVal (c : Char) : Option Nat :=
  if '0' ≤ c ∧ c ≤ '9' then some (c.toNat - 48)
  else if 'a' ≤ c ∧ c ≤ 'f' then some (c.toNat - 87)
  else if 'A' ≤ c ∧ c ≤ 'F' then some (c.toNat - 55)
  else none

/-- JSON string body parser (after the opening quote): returns the decoded
content and the rest of the input after the closing quote. -/
def parseJStr : Nat → Str → Option (Str × Str)
  | 0, _ => none
  | _ + 1, [] => none
  | fuel + 1, c :: t =>
    if c = '"' then some ([], t)
    else if c = '\\' then
      match t with
      | [] => none
      | e :: t2 =>
        let esc : Option (Char × Str) :=
          if e = '"' then some ('"', t2)
          else if e = '\\' then some ('\\', t2)
          else if e = '/' then some ('/', t2)
          else if e = 'b' then some ('\x08', t2)
          else if e = 'f' then some ('\x0c', t2)
          else if e = 'n' then some ('\n', t2)
          else if e = 'r' then some ('\r', t2)
          else if e = 't' then some ('\t', t2)
          else if e = 'u' then
            match t2 with
            | a :: b :: c2 :: d :: t3 =>
              match hexVal a, hexVal b, hexVal c2, hexVal d with
              | some x, some y, some z, some w =>
                some (Char.ofNat (((x * 16 + y) * 16 + z) * 16 + w), t3)
              | _, _, _, _ => none
            | _ => none
          else none
        match esc with
        | none => none
        | some (ch, rest) => (parseJStr fuel rest).map (fun pr => (ch :: pr.1, pr.2))
    else (parseJStr fuel t).map (fun pr => (c :: pr.1, pr.2))

/-- Natural value of a digit run. -/
def digitsVal (d : Str) : Nat := d.foldl (fun acc c => acc * 10 + (c.toNat - 48)) 0

/-- Exponent tail of a JSON number, after the letter e. -/
def parseExpTail (s : Str) : Option (Int × Str) :=
  let negE := s.head? = some '-'
  let s1 := if s.head? = some '-' || s.head? = some '+' then s.drop 1 else s
  let d := s1.takeWhile Char.isDigit
  if d.isEmpty then none
  else
    some ((if negE then -(Int.ofNat (digitsVal d)) else Int.ofNat (digitsVal d)),
      s1.drop d.length)

/-- JSON number parser, producing an exact decimal. -/
def parseJNum (s : Str) : Option (PyNum × Str) :=
  let neg := s.head? = some '-'
  let s1 := if neg then s.drop 1 else s
  let d1 := s1.takeWhile Char.isDigit
  if d1.isEmpty then none
  else
    let r1 := s1.drop d1.length
    let fracStep : Option (Str × Str) :=
      match r1 with
      | '.' :: rr =>
        let d2 := rr.takeWhile Char.isDigit
        if d2.isEmpty then none else some (d2, rr.drop d2.length)
      | _ => some ([], r1)
    match fracStep with
    | none => none
    | some (d2, r2) =>
      let expStep : Option (Int × Str) :=
        match r2 with
        | 'e' :: rr => parseExpTail rr
        | 'E' :: rr => parseExpTail rr
        | _ => some (0, r2)
      match expStep with
      | none => none
      | some (ex, r3) =>
        let mag : Int := Int.ofNat (digitsVal (d1 ++ d2))
        let mant : Int := if neg then -mag else mag
        let res : PyNum :=
          match ex - Int.ofNat d2.length with
          | .ofNat k => ⟨mant * (10 : Int) ^ k, 0⟩
          | .negSucc k => ⟨mant, k + 1⟩
        some (res, r3)

/-- Parser mode: a full value, the body of an object, or the body of an
array (with the entries accumulated so far). -/
inductive JMode where
  | val
  | objBody (acc : List (Str × PyVal))
  | arrBody (acc : List PyVal)

/-- Recursive-descent JSON parser, fuel-driven so that it is structurally
recursive; the fuel chosen by jsonLoads always suffices. -/
def parseJ : Nat → JMode → Str → Option (PyVal × Str)
  | 0, _, _ => none
  | fuel + 1, .val, s =>
    match s.dropWhile jsonWsC with
    | [] => none
    | c :: t =>
      if c = '"' then (parseJStr (t.length + 1) t).map (fun pr => (PyVal.str pr.1, pr.2))
      else if c = Char.ofNat 123 then
        match t.dropWhile jsonWsC with
        | c2 :: t2 => if c2 = Char.ofNat 125 then some (.obj [], t2) else parseJ fuel (.objBody []) t
        | [] => none
      else if c = '[' then
        match t.dropWhile jsonWsC with
        | ']' :: t2 => some (.list [], t2)
        | _ => parseJ fuel (.arrBody []) t
      else if ("true".data).isPrefixOf (c :: t) then some (.bool true, (c :: t).drop 4)
      else if ("false".data).isPrefixOf (c :: t) then some (.bool false, (c :: t).drop 5)
      else if ("null".data).isPrefixOf (c :: t) then some (.null, (c :: t).drop 4)
      else (parseJNum (c :: t)).map (fun pr => (PyVal.num pr.1, pr.2))
  | fuel + 1, .objBody acc, s =>
    match s.dropWhile jsonWsC with
    | '"' :: t =>
      match parseJStr (t.length + 1) t with
      | none => none
      | some (key, r1) =>
        match r1.dropWhile jsonWsC with
        | ':' :: r2 =>
          match parseJ fuel .val r2 with
          | none => none
          | some (v, r3) =>
            match r3.dropWhile jsonWsC with
            | ',' :: r4 => parseJ fuel (.objBody ((key, v) :: acc)) r4
            | c :: r4 =>
              if c = Char.ofNat 125 then some (.obj ((key, v) :: acc).reverse, r4) else none
            | [] => none
        | _ => none
    | _ => none
  | fuel + 1, .arrBody acc, s =>
    match parseJ fuel .val s with
    | none => none
    | some (v, r1) =>
      match r1.dropWhile jsonWsC with
      | ',' :: r2 => parseJ fuel (.arrBody (v :: acc)) r2
      | ']' :: r2 => some (.list (v :: acc).reverse, r2)
      | _ => none

/-- json.loads restricted to what the matcher needs: the parse succeeds
exactly when the whole input is one JSON object. -/
def jsonLoads (s : Str) : Option PyDict :=
  match parseJ (2 * s.length + 4) .val s with
  | some (.obj fields, rest) => if (rest.dropWhile jsonWsC).isEmpty then some fields else none
  | _ => none

/-- Match step for the JSON-extraction pattern of _parse_ai_response: an
opening brace, one or more characters that are not a closing brace, then a
closing brace. -/
def stepJsonSpan : Str → Option Str
  | [] => none
  | c :: t =>
    if c = Char.ofNat 123 then
      let run := t.takeWhile (fun ch => ch ≠ Char.ofNat 125)
      if run ≠ [] ∧ t.drop run.length ≠ [] then some (c :: run ++ [Char.ofNat 125])
      else none
    else none

/-- re.search of the JSON-extraction pattern over the model reply. -/
def findJsonSpan (t : Str) : Option Str := sfx stepJsonSpan t

/-- The positive indicator words of _create_fallback_response. -/
def positive_words : List Str :=
  ["match".data, "suitable".data, "good fit".data, "excellent".data,
   "perfect".data, "highly recommended".data]

/-- The negative indicator words of _create_fallback_response. -/
def negative_words : List Str :=
  ["not match".data, "unsuitable".data, "poor fit".data,
   "not recommended".data, "inappropriate".data]

/-- The reasoning cue words of _create_fallback_response. -/
def reasoning_kws : List Str :=
  ["because".data, "due to".data, "since".data, "based on".data]

/-- GeminiJobMatcher._create_fallback_response: the keyword-spotting
fallback over the raw model reply. -/
def create_fallback_response (t : Str) : PyDict :=
  let tl := pyLower t
  let p1 := positive_words.foldl
    (fun (p : PyNum × Bool) w => if inStr w tl then (pyNumMax p.1 ⟨7, 1⟩, true) else p)
    (⟨0, 1⟩, false)
  let p2 := negative_words.foldl
    (fun (p : PyNum × Bool) w => if inStr w tl then (pyNumMin p.1 ⟨3, 1⟩, false) else p) p1
  let lines := splitOnNl t
  let recom :=
    match lines with
    | [] => "Job opportunity available".data
    | l :: _ => l
  let reason :=
    match lines.find? (fun l => reasoning_kws.any (fun k => inStr k (pyLower l))) with
    | some l => pyStrip l
    | none => "AI analysis completed".data
  [("match_score".data, .num p2.1), ("match_reason".data, .str reason),
   ("recommendation".data, .str recom), ("is_match".data, .bool p2.2)]

/-- GeminiJobMatcher._parse_ai_response: extract a JSON object from the
reply and load it, falling back to the keyword heuristic when none can be
located or loaded. -/
def parse_ai_response (t : Str) : PyDict :=
  match findJsonSpan t with
  | some sp =>
    match jsonLoads sp with
    | some d => d
    | none => create_fallback_response t
  | none => create_fallback_response t

/-- Outcome of the generative-model call made by match_job_to_user: a
reply text, the 15-second timeout, or any exception from the API. -/
inductive ModelOutcome where
  | success (text : Str)
  | timeout
  | apiError

/-- GeminiJobMatcher.match_job_to_user.  The job and preference dicts only
feed the prompt and cannot influence which branch is taken, so they are
carried but unused; the try/except of the source translates the timeout
and any API error into the two fixed zero-score verdict dicts. -/
def match_job_to_user (_job _prefs : PyDict) (outcome : ModelOutcome) : PyDict :=
  match outcome with
  | .success t => parse_ai_response t
  | .timeout =>
    [("match_score".data, .num ⟨0, 1⟩),
     ("match_reason".data, .str ("AI matching timeout".data)),
     ("recommendation".data, .str ("Unable to process job match due to timeout".data)),
     ("is_match".data, .bool false)]
  | .apiError =>
    [("match_score".data, .num ⟨0, 1⟩),
     ("match_reason".data, .str ("Error in AI matching process".data)),
     ("recommendation".data, .str ("Unable to process job match".data)),
     ("is_match".data, .bool false)]

/-! ## The Preference Matcher of the specification.
The rule-based Preference Matcher described in section 4.3 of the
specification does not exist anywhere under src/: the ingestion pipeline of
the repository broadcasts to every user.  The definitions below therefore
model the component from the words of the specification, for the claims
that quantify over its behaviour. -/

/-- Modelled from the spec: the UserPreferenceProfile record of section 3
of the specification (the matcher component that would consume it is
missing from the source). -/
structure PrefProfile where
  preferred_categories : List Str
  preferred_locations : List Str
  preferred_job_types : List Str
  keywords : List Str
deriving DecidableEq

/-- Modelled from the spec: the job fields consulted by the Preference
Matcher of section 4.3. -/
structure SpecJob where
  title : Str
  location : Option Str
  job_type : Option Str
  description : Str
deriving DecidableEq

/-- Modelled from the spec: the MatchResult record of section 3. -/
structure SpecMatchResult where
  user_id : Int
  score : Nat
  matched : Bool
deriving DecidableEq

/-- Modelled from the spec: the location sub-match of section 4.3, weight
two: a wildcard token, bidirectional containment against the job location,
or the remote special case. -/
def specLocationMatch (job : SpecJob) (locs : List Str) : Bool :=
  locs.any (fun l =>
    let ll := pyLower l
    ll = "any".data || ll = "any location".data ||
      (match job.location with
       | some jl =>
         let jll := pyLower jl
         inStr ll jll || inStr jll ll ||
           (ll = "remote".data &&
             (inStr ("remote".data) jll || inStr ("work from home".data) jll))
       | none => false))

/-- Modelled from the spec: the job-type sub-match of section 4.3, weight
one: a wildcard token or bidirectional substring containment against the
job type. -/
def specTypeMatch (job : SpecJob) (types : List Str) : Bool :=
  types.any (fun ty =>
    let tl := pyLower ty
    tl = "all".data || tl = "all job types".data ||
      (match job.job_type with
       | some jt => inStr tl (pyLower jt) || inStr (pyLower jt) tl
       | none => false))

/-- Modelled from the spec: the keyword and category sub-match of section
4.3, weight two: lenient when nothing is configured, otherwise a
case-insensitive substring hit in the title or description. -/
def specKeywordMatch (job : SpecJob) (cats kws : List Str) : Bool :=
  (cats.isEmpty && kws.isEmpty) ||
    (cats ++ kws).any (fun k =>
      inStr (pyLower k) (pyLower job.title) || inStr (pyLower k) (pyLower job.description))

/-- Modelled from the spec: one matching pass for one user, section 4.3
steps one to three: absent profile or empty category, location and type
sets give the wildcard result of score one; otherwise the three weighted
signals are combined by inclusive or, with score two plus one plus two. -/
def specMatchOne (job : SpecJob) (uid : Int) : Option PrefProfile → SpecMatchResult
  | none => ⟨uid, 1, true⟩
  | some p =>
    if p.preferred_categories = [] ∧ p.preferred_locations = [] ∧
        p.preferred_job_types = [] then ⟨uid, 1, true⟩
    else
      ⟨uid,
       (if specLocationMatch job p.preferred_locations then 2 else 0)
         + (if specTypeMatch job p.preferred_job_types then 1 else 0)
         + (if specKeywordMatch job p.preferred_categories p.keywords then 2 else 0),
       specLocationMatch job p.preferred_locations
         || specTypeMatch job p.preferred_job_types
         || specKeywordMatch job p.preferred_categories p.keywords⟩

/-- Stable insertion for the descending order by score of section 4.3. -/
def insertDesc (r : SpecMatchResult) : List SpecMatchResult → List SpecMatchResult
  | [] => [r]
  | y :: ys => if y.score < r.score then r :: y :: ys else y :: insertDesc r ys

/-- Stable sort by descending score, arrival order preserved on ties. -/
def sortDesc : List SpecMatchResult → List SpecMatchResult
  | [] => []
  | r :: rs => insertDesc r (sortDesc rs)

/-- Modelled from the spec: Preference Matcher.match of section 4.3, over
the full user set: per-user results, users with matched false excluded,
ordered by descending score. -/
def specMatch (job : SpecJob) (profiles : List (Int × Option PrefProfile)) :
    List SpecMatchResult :=
  sortDesc ((profiles.map (fun p => specMatchOne job p.1 p.2)).filter (fun r => r.matched))

/-! ## Helper lemmas -/

/-- A substring hit for a concatenation gives a substring hit for its left
part. -/
theorem inStr_append_left (a b t : Str) (h : inStr (a ++ b) t = true) :
    inStr a t = true := by
  induction t with
  | nil =>
    simp only [inStr, List.isEmpty_iff] at h ⊢
    exact (List.append_eq_nil.mp h).1
  | cons c t ih =>
    simp only [inStr, Bool.or_eq_true] at h ⊢
    rcases h with h | h
    · left
      have hp : (a ++ b) <+: (c :: t) := List.isPrefixOf_iff_prefix.mp h
      exact List.isPrefixOf_iff_prefix.mpr ((a.prefix_append b).trans hp)
    · right
      exact ih h

/-- Membership in a stable descending insertion. -/
theorem mem_insertDesc (a r : SpecMatchResult) (l : List SpecMatchResult) :
    a ∈ insertDesc r l ↔ a = r ∨ a ∈ l := by
  induction l with
  | nil => simp [insertDesc]
  | cons y ys ih =>
    unfold insertDesc
    split
    · simp [List.mem_cons]
    · simp only [List.mem_cons, ih]
      tauto

/-- The descending sort of the spec-modelled matcher preserves
membership. -/
theorem mem_sortDesc (a : SpecMatchResult) (l : List SpecMatchResult) :
    a ∈ sortDesc l ↔ a ∈ l := by
  induction l with
  | nil => simp [sortDesc]
  | cons r rs ih => simp [sortDesc, mem_insertDesc, ih, List.mem_cons]

/-- When the duplicate-filter gate admits a message, the resulting state is
the input state with both keys freshly inserted. -/
theorem gate_admit_state (hash : Str → Str) (m : IncomingMsg) (st : FilterState)
    (h : (gate hash m st).1 = true) :
    gate hash m st
      = (true, ⟨msgKey m :: st.processed_messages, hash m.text :: st.processed_content⟩) := by
  unfold gate at h ⊢
  by_cases h1 : msgKey m ∈ st.processed_messages
  · simp [h1] at h
  · by_cases h2 : m.fromSelf = true
    · simp [h1, h2] at h
    · by_cases h3 : m.text = [] ∨ (pyStrip m.text).length < 50
      · simp [h1, h2, h3] at h
      · by_cases h4 : hash m.text ∈ st.processed_content
        · simp [h1, h2, h3, h4] at h
        · simp [h1, h2, h3, h4]

/-! ## Concrete fixtures used by counterexamples and witnesses -/

/-- A denylisted message body longer than fifty characters. -/
def w4msg : IncomingMsg :=
  ⟨-100123, 55,
   ("database error happened during the nightly batch and we could not process the queue items").data,
   false⟩

/-- The reference date used by concrete pipeline runs. -/
def day0 : PyDate := ⟨"2025-01-01".data⟩

/-- A message containing the structured label deadline: and no general job
keyword, passing every cheap pre-filter. -/
def w5text : Str :=
  ("deadline: 2025-01-01 please send documents and papers before the listed date").data

/-- A message containing the structured label Job Title: together with the
job keyword it embeds. -/
def w5good : Str :=
  ("Job Title: Software Engineer needed in our growing office this season").data

/-- A fresh long message for the duplicate-filter witness. -/
def w6msg : IncomingMsg :=
  ⟨77, 9, ("this message body is certainly longer than fifty characters in total").data, false⟩

/-- A message body of forty characters. -/
def w7msg : IncomingMsg :=
  ⟨3, 4, ("a message body of forty characters here!").data, false⟩

/-- The well-formed Afriwork fixture of the round-trip property. -/
def fixture8 : Str :=
  ("Job Title: Backend Engineer\nJob Type: Remote\nWork Location: Addis Ababa\nSalary/Compensation: 20,000 Birr\nDeadline: 2025-01-01").data

/-- The fixture message wrapping fixture8. -/
def fixtureMsg8 : IncomingMsg := ⟨-1001, 7, fixture8, false⟩

/-- A text whose first line is 110 characters long and matches no title
pattern, followed by a short second line. -/
def w10text : Str := List.replicate 110 'x' ++ ("\nShort Title").data

/-- A pattern-free two-line message whose first line is short. -/
def w10msg : IncomingMsg :=
  ⟨5, 6, ("General Announcement\nSeeking motivated engineers to build data tools").data, false⟩

/-- A message whose Job Title: line carries no value, so the derived title
is empty. -/
def w10empty : IncomingMsg := ⟨8, 9, ("Job Title:\nhello there friends").data, false⟩

/-- A job at odds with every preference of cexProf1. -/
def cexJob1 : SpecJob :=
  ⟨("Accountant needed for finance office").data, some (("Addis Ababa").data),
   some (("onsite").data), ("experienced accountant for our finance department").data⟩

/-- A preference profile that matches none of the three signals of
cexJob1. -/
def cexProf1 : PrefProfile :=
  ⟨[("engineering").data], [("gondar").data], [("remote").data], []⟩

/-- The single registered user of the C1 counterexample. -/
def cexUser1 : UserRow := ⟨1, none, none, some 100, ("seeker").data⟩

/-- The job record fed to the broadcast pipeline in the C1
counterexample, mirroring cexJob1. -/
def cexJd1 : JobData :=
  ⟨("Accountant needed for finance office").data, none, some (("Addis Ababa").data),
   some (("onsite").data), none, none, none, none,
   ("experienced accountant for our finance department").data,
   ("telegram_5").data, day0, 10, ("chan").data⟩

/-! ## Claim C1 -/

/-- Claim C1 is false on the code: the spec-modelled Preference Matcher
excludes the user of cexProf1 for cexJob1 (matched false, empty result
list), yet process_and_forward_job still attempts a forward to that user —
delivery is not gated by any matcher. -/
theorem C1_counterexample :
    specMatchOne cexJob1 1 (some cexProf1) = ⟨1, 0, false⟩
    ∧ specMatch cexJob1 [(1, some cexProf1)] = []
    ∧ (process_and_forward_job scraperModuleNames true [cexUser1] cexJd1 (some 7)).map
        Prod.fst = [cexUser1] := by
  decide

/-- Claim C1 (amended): after a successful persist, the pipeline attempts
one notification for every user returned by get_all_users — every user
with a telegram id, with no preference filtering of any kind — and aborts
with no attempts when persistence returned no post id. -/
theorem C1_broadcast_to_all_users (env : List Str) (bot : Bool) (db : List UserRow)
    (jd : JobData) (pid : Int) :
    (process_and_forward_job env bot db jd (some pid)).map Prod.fst = get_all_users db
    ∧ process_and_forward_job env bot db jd none = [] := by
  constructor
  · show ((get_all_users db).map
        (fun u => (u, forward_job_to_user_json env bot u jd pid))).map Prod.fst
      = get_all_users db
    rw [List.map_map]
    exact List.map_id _
  · rfl

/-! ## Claim C2 -/

/-- Claim C2: for every job and every user whose stored profile is absent,
or whose category, location and type sets are all empty, the spec-modelled
Preference Matcher produces the wildcard result with matched true and
score one, and that result is in the returned list. -/
theorem C2_wildcard_default (job : SpecJob) (profiles : List (Int × Option PrefProfile))
    (uid : Int) (prof : Option PrefProfile)
    (hmem : (uid, prof) ∈ profiles)
    (hwild : prof = none ∨ ∃ p, prof = some p ∧ p.preferred_categories = []
      ∧ p.preferred_locations = [] ∧ p.preferred_job_types = []) :
    specMatchOne job uid prof = ⟨uid, 1, true⟩
    ∧ (⟨uid, 1, true⟩ : SpecMatchResult) ∈ specMatch job profiles := by
  have hone : specMatchOne job uid prof = ⟨uid, 1, true⟩ := by
    rcases hwild with h | ⟨p, hp, h1, h2, h3⟩
    · rw [h]
      rfl
    · rw [hp]
      simp only [specMatchOne]
      rw [if_pos ⟨h1, h2, h3⟩]
  refine ⟨hone, ?_⟩
  unfold specMatch
  rw [mem_sortDesc]
  refine List.mem_filter.mpr ⟨?_, rfl⟩
  exact List.mem_map.mpr ⟨(uid, prof), hmem, hone⟩

/-- Witness for C2 at a concrete profile-free user. -/
theorem C2_witness :
    specMatchOne cexJob1 3 none = ⟨3, 1, true⟩
    ∧ (⟨3, 1, true⟩ : SpecMatchResult) ∈ specMatch cexJob1 [(3, none)] :=
  C2_wildcard_default cexJob1 [(3, none)] 3 none (List.mem_singleton.mpr rfl) (Or.inl rfl)

/-! ## Claim C3 -/

/-- Claim C3: for every user and every job record, format_json_job_message
raises NameError for json under the module namespace of the scraper, so
forward_job_to_user_json swallows the exception and attempts no send, and
the broadcast loop of process_and_forward_job completes with every
attempt empty. -/
theorem C3_json_name_error_never_sends (bot : Bool) (u : UserRow) (jd : JobData)
    (pid : Int) (db : List UserRow) (pidOpt : Option Int) :
    format_json_job_message scraperModuleNames (buildJobJson jd pid)
      = Except.error (PyErr.nameError (("json").data))
    ∧ forward_job_to_user_json scraperModuleNames bot u jd pid = none
    ∧ (process_and_forward_job scraperModuleNames bot db jd pidOpt).all
        (fun p => p.2.isNone) = true := by
  have hfmt : ∀ j : JobJson, format_json_job_message scraperModuleNames j
      = Except.error (PyErr.nameError (("json").data)) := by
    intro j
    unfold format_json_job_message pyDumps
    rw [if_neg (by decide)]
  have hfwd : ∀ (b : Bool) (u2 : UserRow) (p2 : Int),
      forward_job_to_user_json scraperModuleNames b u2 jd p2 = none := by
    intro b u2 p2
    unfold forward_job_to_user_json
    rw [hfmt]
  refine ⟨hfmt _, hfwd _ _ _, ?_⟩
  cases pidOpt with
  | none => rfl
  | some pid2 =>
    rw [List.all_eq_true]
    intro x hx
    unfold process_and_forward_job at hx
    rw [List.mem_map] at hx
    obtain ⟨u2, _, rfl⟩ := hx
    rw [hfwd bot u2 pid2]
    rfl

/-! ## Claim C4 -/

/-- Claim C4 is false as stated: a fresh denylisted long message is
admitted and marked by the duplicate filter before the denylist is ever
consulted, so after its rejection by is_job_posting both the identity set
and the content set contain its keys. -/
theorem C4_counterexample :
    skip_patterns.any (fun p => inStr p (pyLower w4msg.text)) = true
    ∧ gate (fun t => t) w4msg ⟨[], []⟩ = (true, ⟨[msgKey w4msg], [w4msg.text]⟩)
    ∧ is_job_posting w4msg.text = false
    ∧ handle_message (fun t => t) none day0 w4msg ⟨[], []⟩
        = (none, ⟨[msgKey w4msg], [w4msg.text]⟩) := by
  decide

/-- Claim C4 (amended): a message matching the denylist, or containing
more than two slash-command tokens, is rejected by the job classifier only
after the duplicate filter has marked it: the handler yields no job, while
the identity key and the content hash are both in the post-gate sets.  The
length pre-filter is the only check that precedes marking. -/
theorem C4_denylisted_marked_then_rejected (hash : Str → Str) (chanTitle : Option Str)
    (today : PyDate) (m : IncomingMsg) (st : FilterState)
    (hadm : (gate hash m st).1 = true)
    (hcond : skip_patterns.any (fun p => inStr p (pyLower m.text)) = true
      ∨ 2 < m.text.count '/') :
    (handle_message hash chanTitle today m st).1 = none
    ∧ msgKey m ∈ (gate hash m st).2.processed_messages
    ∧ hash m.text ∈ (gate hash m st).2.processed_content := by
  have hst := gate_admit_state hash m st hadm
  have hnj : is_job_posting m.text = false := by
    unfold is_job_posting
    by_cases he : m.text.isEmpty = true
    · rw [if_pos he]
    · rw [if_neg he]
      rcases hcond with hdeny | hslash
      · rw [if_pos hdeny]
      · by_cases hd : skip_patterns.any (fun p => inStr p (pyLower m.text)) = true
        · rw [if_pos hd]
        · rw [if_neg hd]
          by_cases hl : (pyStrip m.text).length < 50
          · rw [if_pos hl]
          · rw [if_neg hl, if_pos hslash]
  refine ⟨?_, ?_, ?_⟩
  · unfold handle_message
    rw [hst]
    simp [hnj]
  · rw [hst]
    exact List.mem_cons_self _ _
  · rw [hst]
    exact List.mem_cons_self _ _

/-- Witness for the amended C4 at the concrete denylisted message. -/
theorem C4_witness :
    (handle_message (fun t => t) none day0 w4msg ⟨[], []⟩).1 = none
    ∧ msgKey w4msg ∈ (gate (fun t => t) w4msg ⟨[], []⟩).2.processed_messages
    ∧ (fun t => t) w4msg.text ∈ (gate (fun t => t) w4msg ⟨[], []⟩).2.processed_content :=
  C4_denylisted_marked_then_rejected (fun t => t) none day0 w4msg ⟨[], []⟩
    (by decide) (Or.inl (by decide))

/-! ## Claim C5 -/

/-- Claim C5 is false as stated: a message that passes every cheap
pre-filter and contains the structured label deadline: is still classified
as not job-likely, because no general job keyword occurs and the keyword
gate runs before the structural check. -/
theorem C5_counterexample :
    inStr (("deadline:").data) (pyLower w5text) = true
    ∧ skip_patterns.any (fun p => inStr p (pyLower w5text)) = false
    ∧ 50 ≤ (pyStrip w5text).length
    ∧ w5text.count '/' ≤ 2
    ∧ job_keywords.any (fun k => inStr k (pyLower w5text)) = false
    ∧ is_job_posting w5text = false := by
  decide

/-- Claim C5 (amended): the structural signal does not override keyword
absence: for every text, when no general job keyword occurs is_job_posting
is false — in particular the labels salary/compensation: and deadline:
embed no job keyword, so they alone never classify a message.  For the
labels job title:, job type: and work location:, which themselves embed
the general job keywords job or work, any message passing the cheap
pre-filters is classified as job-likely. -/
theorem C5_keyword_gate_and_labels (text : Str) :
    (job_keywords.any (fun k => inStr k (pyLower text)) = false →
      is_job_posting text = false)
    ∧ (skip_patterns.any (fun p => inStr p (pyLower text)) = false →
        50 ≤ (pyStrip text).length →
        text.count '/' ≤ 2 →
        (inStr (("job title:").data) (pyLower text) = true
          ∨ inStr (("job type:").data) (pyLower text) = true
          ∨ inStr (("work location:").data) (pyLower text) = true) →
        is_job_posting text = true)
    ∧ job_keywords.any (fun k => inStr k (pyLower (("salary/compensation:").data))) = false
    ∧ job_keywords.any (fun k => inStr k (pyLower (("deadline:").data))) = false := by
  refine ⟨?_, ?_, by decide, by decide⟩
  · intro hkw
    unfold is_job_posting
    by_cases he : text.isEmpty = true
    · rw [if_pos he]
    · rw [if_neg he]
      by_cases hd : skip_patterns.any (fun p => inStr p (pyLower text)) = true
      · rw [if_pos hd]
      · rw [if_neg hd]
        by_cases hl : (pyStrip text).length < 50
        · rw [if_pos hl]
        · rw [if_neg hl]
          by_cases hs : 2 < text.count '/'
          · rw [if_pos hs]
          · rw [if_neg hs, if_pos (by simp [hkw])]
  · intro hskip hlen hcmd hlab
    have hne : ¬ (text.isEmpty = true) := by
      cases text with
      | nil => exact absurd hlen (by decide)
      | cons c t => simp
    have hkw : job_keywords.any (fun k => inStr k (pyLower text)) = true := by
      rcases hlab with h | h | h
      · have heq : (("job title:").data) = (("job").data) ++ ((" title:").data) := by decide
        exact List.any_eq_true.mpr
          ⟨("job").data, by decide, inStr_append_left _ _ _ (heq ▸ h)⟩
      · have heq : (("job type:").data) = (("job").data) ++ ((" type:").data) := by decide
        exact List.any_eq_true.mpr
          ⟨("job").data, by decide, inStr_append_left _ _ _ (heq ▸ h)⟩
      · have heq : (("work location:").data) = (("work").data) ++ ((" location:").data) := by
          decide
        exact List.any_eq_true.mpr
          ⟨("work").data, by decide, inStr_append_left _ _ _ (heq ▸ h)⟩
    have hafri : afriwork_labels.any (fun p => inStr p (pyLower text)) = true := by
      rcases hlab with h | h | h
      · exact List.any_eq_true.mpr ⟨("job title:").data, by decide, h⟩
      · exact List.any_eq_true.mpr ⟨("job type:").data, by decide, h⟩
      · exact List.any_eq_true.mpr ⟨("work location:").data, by decide, h⟩
    unfold is_job_posting
    rw [if_neg hne, if_neg (by simp [hskip]), if_neg (Nat.not_lt.mpr hlen),
      if_neg (Nat.not_lt.mpr hcmd), if_neg (by simp [hkw])]
    simp [hafri]

/-- Witness for the amended C5: the keyword-free labelled message is
rejected and the keyword-embedding labelled message is accepted. -/
theorem C5_witness :
    is_job_posting w5text = false ∧ is_job_posting w5good = true :=
  ⟨(C5_keyword_gate_and_labels w5text).1 (by decide),
   (C5_keyword_gate_and_labels w5good).2.1 (by decide) (by decide) (by decide)
     (Or.inl (by decide))⟩

/-! ## Claim C6 -/

/-- Claim C6: once the duplicate filter admits a triple of chat id,
message id and body, the very same call on the resulting state is rejected
with the state unchanged, and more generally every state still containing
the identity key rejects the message — admission happens exactly once
until the sets are cleared. -/
theorem C6_duplicate_filter_idempotent (hash : Str → Str) (m : IncomingMsg)
    (st : FilterState) (h : (gate hash m st).1 = true) :
    gate hash m ((gate hash m st).2) = (false, (gate hash m st).2)
    ∧ ∀ st2 : FilterState, msgKey m ∈ st2.processed_messages →
        gate hash m st2 = (false, st2) := by
  have hrej : ∀ st2 : FilterState, msgKey m ∈ st2.processed_messages →
      gate hash m st2 = (false, st2) := by
    intro st2 hm
    unfold gate
    rw [if_pos hm]
  refine ⟨?_, hrej⟩
  apply hrej
  rw [gate_admit_state hash m st h]
  exact List.mem_cons_self _ _

/-- Witness for C6 at a concrete fresh message and the identity hash. -/
theorem C6_witness :
    gate (fun t => t) w6msg ((gate (fun t => t) w6msg ⟨[], []⟩).2)
      = (false, (gate (fun t => t) w6msg ⟨[], []⟩).2) :=
  (C6_duplicate_filter_idempotent (fun t => t) w6msg ⟨[], []⟩ (by decide)).1

/-! ## Claim C7 -/

/-- Claim C7: a message whose stripped body is shorter than fifty
characters is rejected by the gate before any hashing or marking: the
state is returned unchanged, so the content set is exactly what it was and
the identity set gains no key. -/
theorem C7_short_body_short_circuit (hash : Str → Str) (m : IncomingMsg)
    (st : FilterState) (h : (pyStrip m.text).length < 50) :
    gate hash m st = (false, st)
    ∧ (gate hash m st).2.processed_content = st.processed_content
    ∧ (msgKey m ∉ st.processed_messages →
        msgKey m ∉ (gate hash m st).2.processed_messages) := by
  have hg : gate hash m st = (false, st) := by
    unfold gate
    by_cases h1 : msgKey m ∈ st.processed_messages
    · rw [if_pos h1]
    · rw [if_neg h1]
      by_cases h2 : m.fromSelf = true
      · rw [if_pos h2]
      · rw [if_neg h2, if_pos (Or.inr h)]
  refine ⟨hg, by rw [hg], fun hn => by rw [hg]; exact hn⟩

/-- Witness for C7 at a concrete forty-character body over the empty
state. -/
theorem C7_witness :
    gate (fun t => t) w7msg ⟨[], []⟩ = (false, ⟨[], []⟩) :=
  (C7_short_body_short_circuit (fun t => t) w7msg ⟨[], []⟩ (by decide)).1

/-! ## Claim C8 -/

/-- Claim C8: on the well-formed Afriwork fixture the extractors return
title Backend Engineer, job type normalized to remote, location
Addis Ababa, salary text 20,000 Birr and deadline text 2025-01-01, and the
job record produced by extract_job_data carries exactly those fields. -/
theorem C8_roundtrip_extraction :
    extract_title fixture8 = ("Backend Engineer").data
    ∧ extract_job_type fixture8 = some (("remote").data)
    ∧ extract_location fixture8 = some (("Addis Ababa").data)
    ∧ extract_salary fixture8 = some (("20,000 Birr").data)
    ∧ extract_deadline fixture8 = some (("2025-01-01").data)
    ∧ (extract_job_data fixtureMsg8 none day0).map
        (fun jd => (jd.title, jd.job_type, jd.location, jd.salary_range, jd.deadline))
      = some (("Backend Engineer").data, some (("remote").data),
          some (("Addis Ababa").data), some (("20,000 Birr").data),
          some (("2025-01-01").data)) := by
  decide

/-! ## Claim C9 -/

/-- Claim C9: the rescorer is total toward its caller — it is a function
into verdict dictionaries, and on the model-call timeout as well as on any
API error it returns the zero verdict: match_score 0.0, is_match false,
and a non-empty diagnostic reason string, for every job and preference
input. -/
theorem C9_rescorer_error_totalization (job prefs : PyDict) :
    match_job_to_user job prefs ModelOutcome.timeout
      = [(("match_score").data, PyVal.num ⟨0, 1⟩),
         (("match_reason").data, PyVal.str (("AI matching timeout").data)),
         (("recommendation").data,
           PyVal.str (("Unable to process job match due to timeout").data)),
         (("is_match").data, PyVal.bool false)]
    ∧ match_job_to_user job prefs ModelOutcome.apiError
      = [(("match_score").data, PyVal.num ⟨0, 1⟩),
         (("match_reason").data, PyVal.str (("Error in AI matching process").data)),
         (("recommendation").data, PyVal.str (("Unable to process job match").data)),
         (("is_match").data, PyVal.bool false)]
    ∧ (⟨0, 1⟩ : PyNum).m = 0 :=
  ⟨rfl, rfl, rfl⟩

/-! ## Claim C10 -/

/-- Claim C10 is false as stated: on a text whose first line is 110
characters long and matches no title pattern, the first short line of the
text is the second line, yet extract_title falls back to the fixed default
Job Position instead of that line. -/
theorem C10_counterexample :
    (splitOnNl w10text).find? (fun l => (("Job Title:").data).isPrefixOf (pyStrip l)) = none
    ∧ firstPatternTitle (splitOnNl w10text) = none
    ∧ (splitOnNl w10text).find? (fun l => decide (l.length < 100)) = some (("Short Title").data)
    ∧ extract_title w10text = ("Job Position").data
    ∧ ("Job Position").data ≠ ("Short Title").data := by
  decide

/-- Claim C10 (amended): when no labelled or pattern-based title line
matches, the first line becomes the title exactly when it is shorter than
100 characters, and otherwise the fixed default Job Position is used; for
every text, whenever the derived title or the derived description is
empty the extractor returns null; and every non-null extraction result
has a non-empty title and a non-empty description. -/
theorem C10_title_fallback_null_contract (m : IncomingMsg) (chanTitle : Option Str)
    (today : PyDate) :
    (∀ (l0 : Str) (rest : List Str),
      splitOnNl m.text = l0 :: rest →
      (splitOnNl m.text).find?
        (fun l => (("Job Title:").data).isPrefixOf (pyStrip l)) = none →
      firstPatternTitle (splitOnNl m.text) = none →
      (l0.length < 100 → extract_title m.text = pyStrip l0)
      ∧ (¬ l0.length < 100 → extract_title m.text = ("Job Position").data))
    ∧ ((extract_title m.text = [] ∨ clean_description m.text = []) →
        extract_job_data m chanTitle today = none)
    ∧ (∀ jd, extract_job_data m chanTitle today = some jd →
        jd.title ≠ [] ∧ jd.description ≠ []) := by
  refine ⟨?_, ?_, ?_⟩
  · intro l0 rest hsplit hnoA hnoP
    have htitle : extract_title m.text
        = if l0.length < 100 then pyStrip l0 else ("Job Position").data := by
      unfold extract_title
      rw [hnoA, hnoP, hsplit]
    refine ⟨?_, ?_⟩
    · intro hshort
      rw [htitle, if_pos hshort]
    · intro hlong
      rw [htitle, if_neg hlong]
  · intro hor
    unfold extract_job_data
    cases happ : extract_application_link m.text with
    | error e => simp only [happ]
    | ok app =>
      simp only [happ]
      rw [if_pos hor]
  · intro jd hjd
    unfold extract_job_data at hjd
    cases happ : extract_application_link m.text with
    | error e =>
      simp only [happ] at hjd
      exact absurd hjd (by simp)
    | ok app =>
      simp only [happ] at hjd
      by_cases hor : extract_title m.text = [] ∨ clean_description m.text = []
      · rw [if_pos hor] at hjd
        exact absurd hjd (by simp)
      · rw [if_neg hor] at hjd
        push_neg at hor
        have hrec := Option.some.inj hjd
        rw [← hrec]
        exact ⟨hor.1, hor.2⟩

/-- Witness for the amended C10: the first-line fallback fires on a
concrete pattern-free two-line message, and a labelled message whose
derived title is empty is dropped as null. -/
theorem C10_witness :
    extract_title w10msg.text = pyStrip (("General Announcement").data)
    ∧ extract_job_data w10empty none day0 = none :=
  ⟨(((C10_title_fallback_null_contract w10msg none day0).1
      (("General Announcement").data)
      [("Seeking motivated engineers to build data tools").data]
      (by decide) (by decide) (by decide)).1 (by decide)),
   (C10_title_fallback_null_contract w10empty none day0).2.1 (Or.inl (by decide))⟩

end JobsMatch
